import Mathlib

/-!
Verification of `relay_app.py`, a FastAPI webhook relay.

The development shallowly embeds the request path of the application:

* process configuration loaded from the environment (`loadConfig`, `startup`);
* the Basic-auth dependency `verify_credentials`, built on a model of
  CPython's `secrets.compare_digest` (`_tscmp`) instrumented with a step
  count so timing properties can be stated;
* the `POST /zendesk-webhook` handler `relay`, parameterised by the
  behaviour of the outbound HTTP world, returning the caller-visible
  response together with the list of outbound requests issued;
* the `GET /test-connection` diagnostic handler `test_connection`,
  parameterised by the outcomes of its three probes.
-/

/-- Arbitrary JSON payloads relayed by the service.  The relay treats the
payload opaquely, so JSON numbers are modelled as integers; no property below
depends on numeric representation. -/
inductive JsonValue where
  | null
  | bool (b : Bool)
  | num (n : Int)
  | str (s : String)
  | arr (elems : List JsonValue)
  | obj (fields : List (String × JsonValue))

/-- Values occurring in the relay handler's own response bodies: every body the
handler constructs is a flat object of strings and naturals. -/
inductive JVal where
  | s (v : String)
  | n (v : Nat)
deriving DecidableEq

/-- Process-wide configuration, read once from the environment
(`relay_app.py` lines 17-27).  `RELAY_TOKEN` and `N8N_ENDPOINT` are
`os.getenv` without default, hence `Option`; the Basic-auth credentials
default to `"admin"` / `"changeme"`. -/
structure Config where
  relay_token : Option String
  webhook_username : String
  webhook_password : String
  n8n_endpoint : Option String
deriving DecidableEq

/-- Reading the configuration from an environment (a partial map from
variable names to values), as the module-level code of `relay_app.py` does. -/
def loadConfig (env : String → Option String) : Config where
  relay_token := env "RELAY_TOKEN"
  webhook_username := (env "WEBHOOK_USERNAME").getD "admin"
  webhook_password := (env "WEBHOOK_PASSWORD").getD "changeme"
  n8n_endpoint := env "N8N_ENDPOINT"

/-- Result of process startup.  The constructor `fatalConfigError` exists so
that a startup-validation property can be stated; the actual module-level code
of `relay_app.py` performs no validation and always starts. -/
inductive StartupResult where
  | started (cfg : Config)
  | fatalConfigError (msg : String)
deriving DecidableEq

/-- Startup of `relay_app.py`: load `.env`, read the configuration, create the
app.  No check of any secret is performed, so startup always succeeds. -/
def startup (env : String → Option String) : StartupResult :=
  StartupResult.started (loadConfig env)

/-- Caller-supplied HTTP Basic credentials (fastapi HTTPBasicCredentials). -/
structure HTTPBasicCredentials where
  username : String
  password : String
deriving DecidableEq

/-- One iteration-counted pass of the constant-time comparison loop of
CPython's `_tscmp` (Modules/_operator.c), the core of
`secrets.compare_digest`: the accumulator ors the xor of each byte pair, and
the second component counts loop iterations performed. -/
def tscmpLoop : List (Nat × Nat) → Nat → Nat × Nat
  | [], acc => (acc, 0)
  | p :: rest, acc =>
    let r := tscmpLoop rest (acc ||| (p.1 ^^^ p.2))
    (r.1, r.2 + 1)

/-- CPython `_tscmp(a, b, len_a, len_b)`: the loop always runs `len_b`
iterations; when the lengths differ the left operand is replaced by `b`
itself and the result is pre-set to a nonzero value, so the outcome is
`false` while the scanned data stays length-`len_b`. -/
def tscmp (a b : List Nat) : Bool × Nat :=
  if a.length ≠ b.length then
    let r := tscmpLoop (b.zip b) 1
    (r.1 == 0, r.2)
  else
    let r := tscmpLoop (a.zip b) 0
    (r.1 == 0, r.2)

/-- Byte view of an ASCII string, as `secrets.compare_digest` encodes its
`str` arguments before comparing (the Python function requires ASCII input;
`Char.toNat` is the byte value on that range). -/
def strBytes (s : String) : List Nat :=
  s.data.map Char.toNat

/-- Model of `secrets.compare_digest` on strings: the boolean outcome. -/
def compare_digest (a b : String) : Bool :=
  (tscmp (strBytes a) (strBytes b)).1

/-- Number of comparison-loop iterations `secrets.compare_digest` performs on
the given arguments: the cost observable of the timing model. -/
def compare_digestCost (a b : String) : Nat :=
  (tscmp (strBytes a) (strBytes b)).2

/-- The Basic-auth dependency `verify_credentials` (`relay_app.py` lines
32-43): both comparisons are always evaluated, then a 401 with a fixed detail
string is raised unless both succeed. -/
def verify_credentials (cfg : Config) (credentials : HTTPBasicCredentials) :
    Except (Nat × String) HTTPBasicCredentials :=
  let is_username_correct := compare_digest credentials.username cfg.webhook_username
  let is_password_correct := compare_digest credentials.password cfg.webhook_password
  if !(is_username_correct && is_password_correct) then
    Except.error (401, "Incorrect username or password")
  else
    Except.ok credentials

/-- Total number of comparison-loop iterations `verify_credentials` performs:
both `compare_digest` calls run unconditionally before the test. -/
def verify_credentials_cost (cfg : Config) (credentials : HTTPBasicCredentials) : Nat :=
  compare_digestCost credentials.username cfg.webhook_username +
  compare_digestCost credentials.password cfg.webhook_password

/-- Python `repr` of an optional string, as used by the f-string in the
403 detail (`relay_app.py` line 109): `None` for a missing header, quoted
text otherwise (modelled for strings without quotes or escapes, which is all
the theorems below instantiate it with). -/
def pyRepr : Option String → String
  | none => "None"
  | some s => "'" ++ s ++ "'"

/-- Body of a FastAPI `HTTPException` response. -/
def detailBody (d : String) : List (String × JVal) :=
  [("detail", JVal.s d)]

/-- Caller-visible HTTP response of the relay handler. -/
structure HttpResponse where
  status : Nat
  body : List (String × JVal)
deriving DecidableEq

/-- Behaviour of the downstream endpoint on one outbound POST: either an HTTP
response with a status and text body, or one of the exceptions the handler
catches (`httpx.ConnectTimeout`, `httpx.ConnectError`, anything else). -/
inductive DownstreamResult where
  | response (status : Nat) (text : String)
  | connectTimeout (msg : String)
  | connectError (msg : String)
  | otherError (typeName : String) (msg : String)

/-- Behaviour of the outbound HTTP world: construction of the
`httpx.AsyncClient` itself may raise (outer `try` of the handler), otherwise
the POST has a `DownstreamResult`. -/
inductive ClientWorld where
  | clientFail (typeName : String) (msg : String)
  | clientOk (result : DownstreamResult)

/-- An inbound request to `POST /zendesk-webhook`: the Basic `Authorization`
header (absent or parsed credentials), the `X-Relay-Token` header, and the
JSON body. -/
structure RelayRequest where
  credentials : Option HTTPBasicCredentials
  x_relay_token : Option String
  body : JsonValue

/-- One outbound POST issued by the handler: target URL, JSON body, headers
and timeout in seconds, exactly the arguments of `client.post` at lines
130-135. -/
structure OutboundRequest where
  url : Option String
  jsonBody : JsonValue
  headers : List (String × String)
  timeout : Nat

/-- The headers the forwarder attaches to every outbound POST
(`relay_app.py` lines 124-128). -/
def forwardHeaders : List (String × String) :=
  [("Content-Type", "application/json"),
   ("Accept", "application/json"),
   ("User-Agent", "n8n-relay/1.0")]

/-- The `POST /zendesk-webhook` handler (`relay_app.py` lines 103-193),
returning the caller-visible response and the list of outbound POSTs issued.
FastAPI resolves the `HTTPBasic` security dependency and `verify_credentials`
before the handler body runs: a missing `Authorization` header yields 401
`Not authenticated`, a failed credential check yields the dependency's
exception, and only then is the relay-token header compared. -/
def relay (cfg : Config) (req : RelayRequest) (w : ClientWorld) :
    HttpResponse × List OutboundRequest :=
  match req.credentials with
  | none => ({ status := 401, body := detailBody "Not authenticated" }, [])
  | some creds =>
    match verify_credentials cfg creds with
    | Except.error (s, d) => ({ status := s, body := detailBody d }, [])
    | Except.ok _ =>
      if req.x_relay_token ≠ cfg.relay_token then
        ({ status := 403,
           body := detailBody ("Invalid relay token. Expected: " ++
             pyRepr cfg.relay_token ++ ", Got: " ++ pyRepr req.x_relay_token) }, [])
      else
        match w with
        | ClientWorld.clientFail ty msg =>
          ({ status := 502,
             body := [("error", JVal.s "Failed to create HTTP client"),
                      ("details", JVal.s msg), ("type", JVal.s ty)] }, [])
        | ClientWorld.clientOk d =>
          let out : OutboundRequest :=
            { url := cfg.n8n_endpoint, jsonBody := req.body,
              headers := forwardHeaders, timeout := 30 }
          match d with
          | DownstreamResult.response st text =>
            if st ≥ 400 then
              ({ status := 502,
                 body := [("error", JVal.s "n8n relay failed"),
                          ("details", JVal.s text),
                          ("status_code", JVal.n st)] }, [out])
            else
              ({ status := 200, body := [("status", JVal.s "ok")] }, [out])
          | DownstreamResult.connectTimeout msg =>
            ({ status := 504,
               body := [("error", JVal.s "Connection timeout to n8n"),
                        ("details", JVal.s msg),
                        ("type", JVal.s "timeout_error")] }, [out])
          | DownstreamResult.connectError msg =>
            ({ status := 502,
               body := [("error", JVal.s "Failed to connect to n8n"),
                        ("details", JVal.s msg),
                        ("type", JVal.s "connection_error")] }, [out])
          | DownstreamResult.otherError ty msg =>
            ({ status := 502,
               body := [("error", JVal.s "Unexpected error when forwarding to n8n"),
                        ("details", JVal.s msg),
                        ("type", JVal.s ty)] }, [out])

/-! ### Properties of the constant-time comparison model -/

theorem tscmpLoop_snd (l : List (Nat × Nat)) (acc : Nat) :
    (tscmpLoop l acc).2 = l.length := by
  induction l generalizing acc with
  | nil => rfl
  | cons p rest ih => simp [tscmpLoop, ih]

theorem lor_eq_zero_iff (m n : Nat) : m ||| n = 0 ↔ m = 0 ∧ n = 0 := by
  constructor
  · intro h
    constructor
    · apply Nat.eq_of_testBit_eq
      intro i
      have hb := congrArg (fun x => x.testBit i) h
      simp only [Nat.testBit_lor, Nat.zero_testBit, Bool.or_eq_false_iff] at hb
      simp [hb.1]
    · apply Nat.eq_of_testBit_eq
      intro i
      have hb := congrArg (fun x => x.testBit i) h
      simp only [Nat.testBit_lor, Nat.zero_testBit, Bool.or_eq_false_iff] at hb
      simp [hb.2]
  · rintro ⟨rfl, rfl⟩
    rfl

theorem tscmpLoop_fst_eq_zero (l : List (Nat × Nat)) (acc : Nat) :
    (tscmpLoop l acc).1 = 0 ↔ acc = 0 ∧ ∀ p ∈ l, p.1 = p.2 := by
  induction l generalizing acc with
  | nil => simp [tscmpLoop]
  | cons p rest ih =>
    simp only [tscmpLoop]
    rw [ih, lor_eq_zero_iff, Nat.xor_eq_zero, List.forall_mem_cons]
    tauto

theorem zip_forall_eq_iff (l₁ l₂ : List Nat) (h : l₁.length = l₂.length) :
    (∀ p ∈ l₁.zip l₂, p.1 = p.2) ↔ l₁ = l₂ := by
  induction l₁ generalizing l₂ with
  | nil =>
    cases l₂ with
    | nil => simp
    | cons b t => simp at h
  | cons a t ih =>
    cases l₂ with
    | nil => simp at h
    | cons b t₂ =>
      simp only [List.zip_cons_cons, List.forall_mem_cons, List.cons.injEq]
      rw [ih t₂ (by simpa using h)]

theorem char_toNat_inj {c d : Char} (h : c.toNat = d.toNat) : c = d := by
  rw [← Char.ofNat_toNat c, ← Char.ofNat_toNat d, h]

theorem map_char_toNat_inj :
    ∀ {l₁ l₂ : List Char}, l₁.map Char.toNat = l₂.map Char.toNat → l₁ = l₂
  | [], [], _ => rfl
  | [], _ :: _, h => by simp at h
  | _ :: _, [], h => by simp at h
  | a :: t₁, b :: t₂, h => by
    simp only [List.map_cons, List.cons.injEq] at h
    exact List.cons_eq_cons.mpr ⟨char_toNat_inj h.1, map_char_toNat_inj h.2⟩

theorem strBytes_inj {a b : String} (h : strBytes a = strBytes b) : a = b :=
  String.ext (map_char_toNat_inj h)

theorem strBytes_length (s : String) : (strBytes s).length = s.length := by
  rw [strBytes, List.length_map]
  rfl

theorem compare_digest_eq_true_iff (a b : String) :
    compare_digest a b = true ↔ a = b := by
  unfold compare_digest tscmp
  by_cases h : (strBytes a).length = (strBytes b).length
  · rw [if_neg (fun hne => hne h)]
    simp only [beq_iff_eq]
    rw [tscmpLoop_fst_eq_zero]
    simp only [true_and]
    rw [zip_forall_eq_iff _ _ h]
    exact ⟨strBytes_inj, fun hab => by rw [hab]⟩
  · rw [if_pos h]
    simp only [beq_iff_eq]
    rw [tscmpLoop_fst_eq_zero]
    exact iff_of_false (by simp) (fun hab => h (by rw [hab]))

theorem compare_digest_self (a : String) : compare_digest a a = true :=
  (compare_digest_eq_true_iff a a).mpr rfl

theorem compare_digest_false {a b : String} (h : a ≠ b) :
    compare_digest a b = false := by
  cases hcd : compare_digest a b with
  | false => rfl
  | true => exact absurd ((compare_digest_eq_true_iff a b).mp hcd) h

theorem compare_digestCost_eq (a b : String) :
    compare_digestCost a b = b.length := by
  unfold compare_digestCost tscmp
  by_cases h : (strBytes a).length = (strBytes b).length
  · rw [if_neg (fun hne => hne h)]
    simp only [tscmpLoop_snd, List.length_zip, h, min_self]
    exact strBytes_length b
  · rw [if_pos h]
    simp only [tscmpLoop_snd, List.length_zip, min_self]
    exact strBytes_length b

/-! ### Diagnostics: the `GET /test-connection` handler -/

/-- Outcomes of the three independent sub-probes of `test_connection`:
DNS resolution (IPs or exception text), TCP connect (`connect_ex` return
code or exception text), HTTP GET (status and headers, or exception type
name and text). -/
structure ProbeWorld where
  dns : Except String (List String)
  tcp : Except String Int
  http : Except (String × String) (Nat × List (String × String))

/-- Whether an `Except` outcome is a success. -/
def exceptOk {ε α : Type} : Except ε α → Bool
  | Except.ok _ => true
  | Except.error _ => false

/-- The `tests.dns` entry (`relay_app.py` lines 53-65). -/
def dnsEntry : Except String (List String) → JsonValue
  | Except.ok ips =>
    JsonValue.obj [("success", JsonValue.bool true),
                   ("ips", JsonValue.arr (ips.map JsonValue.str))]
  | Except.error e =>
    JsonValue.obj [("success", JsonValue.bool false),
                   ("error", JsonValue.str e)]

/-- The `tests.tcp` entry (`relay_app.py` lines 67-83): on a completed
`connect_ex` the success flag is `code == 0` and the error field is null
exactly when the code is zero. -/
def tcpEntry : Except String Int → JsonValue
  | Except.ok code =>
    JsonValue.obj [("success", JsonValue.bool (code == 0)),
                   ("error", if code == 0 then JsonValue.null
                             else JsonValue.str ("Connection failed with code " ++ toString code))]
  | Except.error e =>
    JsonValue.obj [("success", JsonValue.bool false),
                   ("error", JsonValue.str e)]

/-- Success flag recorded for the TCP probe. -/
def tcpSuccess : Except String Int → Bool
  | Except.ok code => code == 0
  | Except.error _ => false

/-- The `tests.http` entry (`relay_app.py` lines 85-99): any HTTP response,
whatever its status, is recorded as a success. -/
def httpEntry : Except (String × String) (Nat × List (String × String)) → JsonValue
  | Except.ok r =>
    JsonValue.obj [("success", JsonValue.bool true),
                   ("status_code", JsonValue.num (Int.ofNat r.1)),
                   ("headers", JsonValue.obj (r.2.map (fun p => (p.1, JsonValue.str p.2))))]
  | Except.error e =>
    JsonValue.obj [("success", JsonValue.bool false),
                   ("error", JsonValue.str e.2),
                   ("error_type", JsonValue.str e.1)]

/-- The `GET /test-connection` handler (`relay_app.py` lines 45-101): each of
the three probes runs in its own try block, and its entry is written into the
`tests` object whatever the other probes did. -/
def test_connection (cfg : Config) (w : ProbeWorld) : JsonValue :=
  JsonValue.obj
    [("n8n_endpoint", match cfg.n8n_endpoint with
        | none => JsonValue.null
        | some u => JsonValue.str u),
     ("tests", JsonValue.obj
        [("dns", dnsEntry w.dns),
         ("tcp", tcpEntry w.tcp),
         ("http", httpEntry w.http)])]

/-- Lookup of a key in a JSON object field list. -/
def lookupField : List (String × JsonValue) → String → Option JsonValue
  | [], _ => none
  | (k, v) :: rest, key => if k == key then some v else lookupField rest key

/-- Lookup of a key in a JSON value (objects only). -/
def getField : JsonValue → String → Option JsonValue
  | JsonValue.obj fields, k => lookupField fields k
  | _, _ => none

/-! ### Claim theorems -/

/-- C9: the Basic-auth credential comparison runs in time independent of where
the first mismatched character between the supplied and configured username or
password occurs.  In the step-count model of `secrets.compare_digest`, the
total number of comparison-loop iterations `verify_credentials` performs is
the same for any two supplied credential pairs, so in particular it does not
depend on the position of the first mismatch. -/
theorem verify_credentials_constant_time (cfg : Config)
    (c c' : HTTPBasicCredentials) :
    verify_credentials_cost cfg c = verify_credentials_cost cfg c' := by
  simp [verify_credentials_cost, compare_digestCost_eq]

/-- C8: every invocation of `GET /test-connection` records all three
sub-probes, whatever each one did: the `tests` object always carries the
`dns`, `tcp` and `http` entries, built from each probe's own outcome alone,
and each entry carries a `success` flag reflecting that outcome. -/
theorem test_connection_reports_all_probes (cfg : Config) (w : ProbeWorld) :
    getField (test_connection cfg w) "tests" =
      some (JsonValue.obj [("dns", dnsEntry w.dns),
                           ("tcp", tcpEntry w.tcp),
                           ("http", httpEntry w.http)])
    ∧ getField (dnsEntry w.dns) "success" = some (JsonValue.bool (exceptOk w.dns))
    ∧ getField (tcpEntry w.tcp) "success" = some (JsonValue.bool (tcpSuccess w.tcp))
    ∧ getField (httpEntry w.http) "success" = some (JsonValue.bool (exceptOk w.http)) := by
  obtain ⟨d, t, h⟩ := w
  refine ⟨rfl, ?_, ?_, ?_⟩
  · cases d <;> rfl
  · cases t <;> rfl
  · cases h <;> rfl

/-- Configuration used to exhibit the token-echo defect: only the relay token
varies. -/
def c1Cfg (tok : String) : Config :=
  { relay_token := some tok, webhook_username := "admin",
    webhook_password := "changeme", n8n_endpoint := some "http://n8n.internal/webhook" }

/-- A request with valid Basic credentials but a wrong relay token. -/
def c1Req : RelayRequest :=
  { credentials := some { username := "admin", password := "changeme" },
    x_relay_token := some "guess", body := JsonValue.null }

/-- A benign outbound world (never reached by a rejected request). -/
def c1World : ClientWorld :=
  ClientWorld.clientOk (DownstreamResult.response 200 "")

/-- C1 (refuted, code bug): the rejection body is NOT independent of the
configured secrets.  Two runs that differ only in the configured
`RELAY_TOKEN` both reject the same request with 403, yet produce different
rejection bodies — the 403 detail string interpolates `repr(RELAY_TOKEN)`
(`relay_app.py` line 109), so the body depends on (and contains) the secret,
contradicting the stated property. -/
theorem relay_token_rejection_echoes_secret :
    (relay (c1Cfg "secret-one") c1Req c1World).1.status = 403
    ∧ (relay (c1Cfg "secret-two") c1Req c1World).1.status = 403
    ∧ (relay (c1Cfg "secret-one") c1Req c1World).1.body ≠
        (relay (c1Cfg "secret-two") c1Req c1World).1.body := by
  decide

/-- An environment with no `RELAY_TOKEN` (and no explicit Basic credentials,
so the defaults apply). -/
def c7Env : String → Option String := fun k =>
  if k = "N8N_ENDPOINT" then some "http://n8n.internal/webhook" else none

/-- C7 (refuted, code bug): with the relay token absent from the environment
the process does not fail at startup; it starts, serves requests, and — since
`None != None` is false — a request carrying no `X-Relay-Token` header at all
passes the token check and is forwarded, answering 200. -/
theorem startup_missing_token_still_serves :
    startup c7Env = StartupResult.started (loadConfig c7Env)
    ∧ (loadConfig c7Env).relay_token = none
    ∧ (relay (loadConfig c7Env)
         { credentials := some { username := "admin", password := "changeme" },
           x_relay_token := none, body := JsonValue.null }
         (ClientWorld.clientOk (DownstreamResult.response 200 "ok"))).1.status = 200 := by
  refine ⟨rfl, rfl, ?_⟩
  decide

/-- C2: a request to `POST /zendesk-webhook` whose credentials are missing or
incorrect triggers no outbound call, and the status is the rejecting mode's
code: 401 when the Basic credentials are missing or wrong, 403 when the Basic
credentials are right but the relay token does not match. -/
theorem relay_rejected_no_forward (cfg : Config) (req : RelayRequest) (w : ClientWorld) :
    (req.credentials = none →
       (relay cfg req w).2 = [] ∧ (relay cfg req w).1.status = 401)
    ∧ (∀ creds, req.credentials = some creds →
         (creds.username ≠ cfg.webhook_username ∨ creds.password ≠ cfg.webhook_password) →
         (relay cfg req w).2 = [] ∧ (relay cfg req w).1.status = 401)
    ∧ (∀ creds, req.credentials = some creds →
         creds.username = cfg.webhook_username → creds.password = cfg.webhook_password →
         req.x_relay_token ≠ cfg.relay_token →
         (relay cfg req w).2 = [] ∧ (relay cfg req w).1.status = 403) := by
  refine ⟨?_, ?_, ?_⟩
  · intro h
    simp [relay, h]
  · intro creds hc hbad
    rcases hbad with hun | hpw
    · simp [relay, verify_credentials, hc, compare_digest_false hun]
    · simp [relay, verify_credentials, hc, compare_digest_false hpw]
  · intro creds hc hu hp ht
    simp [relay, verify_credentials, hc, hu, hp, compare_digest_self, ht]

/-- C2 witness: a concrete request with no Basic credentials is answered 401
and nothing is forwarded. -/
theorem relay_rejected_no_forward_witness :
    (relay { relay_token := some "tok", webhook_username := "admin",
             webhook_password := "changeme", n8n_endpoint := some "http://n8n" }
           { credentials := none, x_relay_token := some "tok", body := JsonValue.null }
           (ClientWorld.clientOk (DownstreamResult.response 200 ""))).2 = []
    ∧ (relay { relay_token := some "tok", webhook_username := "admin",
               webhook_password := "changeme", n8n_endpoint := some "http://n8n" }
             { credentials := none, x_relay_token := some "tok", body := JsonValue.null }
             (ClientWorld.clientOk (DownstreamResult.response 200 ""))).1.status = 401 :=
  (relay_rejected_no_forward
      { relay_token := some "tok", webhook_username := "admin",
        webhook_password := "changeme", n8n_endpoint := some "http://n8n" }
      { credentials := none, x_relay_token := some "tok", body := JsonValue.null }
      (ClientWorld.clientOk (DownstreamResult.response 200 ""))).1 rfl

/-- C3: a request with correct credentials whose downstream POST returns a
status below 400 is answered 200 with body exactly the object with the single
field `status` set to `ok`. -/
theorem relay_success_ok (cfg : Config) (req : RelayRequest)
    (creds : HTTPBasicCredentials) (st : Nat) (text : String)
    (hc : req.credentials = some creds)
    (hu : creds.username = cfg.webhook_username)
    (hp : creds.password = cfg.webhook_password)
    (ht : req.x_relay_token = cfg.relay_token)
    (hst : st < 400) :
    (relay cfg req (ClientWorld.clientOk (DownstreamResult.response st text))).1 =
      { status := 200, body := [("status", JVal.s "ok")] } := by
  simp [relay, verify_credentials, hc, hu, hp, ht, compare_digest_self,
        Nat.not_le.mpr hst]

/-- C3 witness: a concrete authorized request with a 204 downstream response
is answered 200 with the ok body. -/
theorem relay_success_ok_witness :
    (relay { relay_token := some "tok", webhook_username := "admin",
             webhook_password := "changeme", n8n_endpoint := some "http://n8n" }
           { credentials := some { username := "admin", password := "changeme" },
             x_relay_token := some "tok", body := JsonValue.null }
           (ClientWorld.clientOk (DownstreamResult.response 204 ""))).1 =
      { status := 200, body := [("status", JVal.s "ok")] } :=
  relay_success_ok
    { relay_token := some "tok", webhook_username := "admin",
      webhook_password := "changeme", n8n_endpoint := some "http://n8n" }
    { credentials := some { username := "admin", password := "changeme" },
      x_relay_token := some "tok", body := JsonValue.null }
    { username := "admin", password := "changeme" } 204 ""
    rfl rfl rfl rfl (by decide)

/-- C10: authorization needs both checks and evaluates the Basic check first:
wrong Basic credentials give 401 whatever the token header holds, right Basic
credentials with a mismatched token give 403, and a request passing both
checks is forwarded (issues an outbound POST) whenever the HTTP client can be
constructed. -/
theorem relay_auth_order (cfg : Config) (req : RelayRequest) (w : ClientWorld) :
    (∀ creds, req.credentials = some creds →
       (creds.username ≠ cfg.webhook_username ∨ creds.password ≠ cfg.webhook_password) →
       (relay cfg req w).1.status = 401)
    ∧ (∀ creds, req.credentials = some creds →
         creds.username = cfg.webhook_username → creds.password = cfg.webhook_password →
         req.x_relay_token ≠ cfg.relay_token →
         (relay cfg req w).1.status = 403)
    ∧ (∀ creds d, req.credentials = some creds →
         creds.username = cfg.webhook_username → creds.password = cfg.webhook_password →
         req.x_relay_token = cfg.relay_token → w = ClientWorld.clientOk d →
         (relay cfg req w).2 ≠ []) := by
  refine ⟨?_, ?_, ?_⟩
  · intro creds hc hbad
    rcases hbad with hun | hpw
    · simp [relay, verify_credentials, hc, compare_digest_false hun]
    · simp [relay, verify_credentials, hc, compare_digest_false hpw]
  · intro creds hc hu hp ht
    simp [relay, verify_credentials, hc, hu, hp, compare_digest_self, ht]
  · intro creds d hc hu hp ht hw
    subst hw
    cases d with
    | response st text =>
      by_cases hst : st ≥ 400 <;>
        simp [relay, verify_credentials, hc, hu, hp, ht, compare_digest_self, hst]
    | connectTimeout msg =>
      simp [relay, verify_credentials, hc, hu, hp, ht, compare_digest_self]
    | connectError msg =>
      simp [relay, verify_credentials, hc, hu, hp, ht, compare_digest_self]
    | otherError ty msg =>
      simp [relay, verify_credentials, hc, hu, hp, ht, compare_digest_self]

/-- C10 witness: a concrete request with wrong Basic password but a correct
token is still answered 401 — the Basic check fires first. -/
theorem relay_auth_order_witness :
    (relay { relay_token := some "tok", webhook_username := "admin",
             webhook_password := "changeme", n8n_endpoint := some "http://n8n" }
           { credentials := some { username := "admin", password := "wrong" },
             x_relay_token := some "tok", body := JsonValue.null }
           (ClientWorld.clientOk (DownstreamResult.response 200 ""))).1.status = 401 :=
  (relay_auth_order
      { relay_token := some "tok", webhook_username := "admin",
        webhook_password := "changeme", n8n_endpoint := some "http://n8n" }
      { credentials := some { username := "admin", password := "wrong" },
        x_relay_token := some "tok", body := JsonValue.null }
      (ClientWorld.clientOk (DownstreamResult.response 200 ""))).1
    { username := "admin", password := "wrong" } rfl
    (Or.inr (by decide))

/-- C4 counterexample: with an authorized request and a downstream 500
response, the relay's 502 body is not the claimed object — its `error` field
reads `n8n relay failed`, not `relay failed`. -/
theorem relay_upstream_error_body_differs :
    (relay { relay_token := some "tok", webhook_username := "admin",
             webhook_password := "changeme", n8n_endpoint := some "http://n8n" }
           { credentials := some { username := "admin", password := "changeme" },
             x_relay_token := some "tok", body := JsonValue.null }
           (ClientWorld.clientOk (DownstreamResult.response 500 "oops"))).1.status = 502
    ∧ (relay { relay_token := some "tok", webhook_username := "admin",
               webhook_password := "changeme", n8n_endpoint := some "http://n8n" }
             { credentials := some { username := "admin", password := "changeme" },
               x_relay_token := some "tok", body := JsonValue.null }
             (ClientWorld.clientOk (DownstreamResult.response 500 "oops"))).1.body ≠
        [("error", JVal.s "relay failed"), ("details", JVal.s "oops"),
         ("status_code", JVal.n 500)] := by
  decide

/-- C4 (amended): a request with correct credentials whose downstream POST
returns a status of 400 or above is answered 502 with the body object whose
`error` field is `n8n relay failed`, whose `details` field is the downstream
response body, and whose `status_code` field is the downstream status. -/
theorem relay_upstream_error_maps_502 (cfg : Config) (req : RelayRequest)
    (creds : HTTPBasicCredentials) (st : Nat) (text : String)
    (hc : req.credentials = some creds)
    (hu : creds.username = cfg.webhook_username)
    (hp : creds.password = cfg.webhook_password)
    (ht : req.x_relay_token = cfg.relay_token)
    (hst : 400 ≤ st) :
    (relay cfg req (ClientWorld.clientOk (DownstreamResult.response st text))).1 =
      { status := 502,
        body := [("error", JVal.s "n8n relay failed"),
                 ("details", JVal.s text),
                 ("status_code", JVal.n st)] } := by
  simp [relay, verify_credentials, hc, hu, hp, ht, compare_digest_self, hst]

/-- C4 witness: the amended mapping at a concrete downstream 500 response. -/
theorem relay_upstream_error_maps_502_witness :
    (relay { relay_token := some "tok", webhook_username := "admin",
             webhook_password := "changeme", n8n_endpoint := some "http://n8n" }
           { credentials := some { username := "admin", password := "changeme" },
             x_relay_token := some "tok", body := JsonValue.null }
           (ClientWorld.clientOk (DownstreamResult.response 500 "boom"))).1 =
      { status := 502,
        body := [("error", JVal.s "n8n relay failed"),
                 ("details", JVal.s "boom"),
                 ("status_code", JVal.n 500)] } :=
  relay_upstream_error_maps_502
    { relay_token := some "tok", webhook_username := "admin",
      webhook_password := "changeme", n8n_endpoint := some "http://n8n" }
    { credentials := some { username := "admin", password := "changeme" },
      x_relay_token := some "tok", body := JsonValue.null }
    { username := "admin", password := "changeme" } 500 "boom"
    rfl rfl rfl rfl (by decide)

/-- C5: an authorized forward attempt whose outbound connection fails is
classified and mapped — a connect timeout is answered 504 with a body whose
`type` field is `timeout_error`, and a connection failure is answered 502
with a body whose `type` field is `connection_error`. -/
theorem relay_connection_failure_classified (cfg : Config) (req : RelayRequest)
    (creds : HTTPBasicCredentials) (msg : String)
    (hc : req.credentials = some creds)
    (hu : creds.username = cfg.webhook_username)
    (hp : creds.password = cfg.webhook_password)
    (ht : req.x_relay_token = cfg.relay_token) :
    ((relay cfg req (ClientWorld.clientOk (DownstreamResult.connectTimeout msg))).1.status = 504
      ∧ ("type", JVal.s "timeout_error") ∈
          (relay cfg req (ClientWorld.clientOk (DownstreamResult.connectTimeout msg))).1.body)
    ∧ ((relay cfg req (ClientWorld.clientOk (DownstreamResult.connectError msg))).1.status = 502
      ∧ ("type", JVal.s "connection_error") ∈
          (relay cfg req (ClientWorld.clientOk (DownstreamResult.connectError msg))).1.body) := by
  refine ⟨⟨?_, ?_⟩, ⟨?_, ?_⟩⟩ <;>
    simp [relay, verify_credentials, hc, hu, hp, ht, compare_digest_self]

/-- C5 witness: the classification at a concrete authorized request and
concrete failure messages. -/
theorem relay_connection_failure_classified_witness :
    ((relay { relay_token := some "tok", webhook_username := "admin",
              webhook_password := "changeme", n8n_endpoint := some "http://n8n" }
            { credentials := some { username := "admin", password := "changeme" },
              x_relay_token := some "tok", body := JsonValue.null }
            (ClientWorld.clientOk (DownstreamResult.connectTimeout "timed out"))).1.status = 504
      ∧ ("type", JVal.s "timeout_error") ∈
          (relay { relay_token := some "tok", webhook_username := "admin",
                   webhook_password := "changeme", n8n_endpoint := some "http://n8n" }
                 { credentials := some { username := "admin", password := "changeme" },
                   x_relay_token := some "tok", body := JsonValue.null }
                 (ClientWorld.clientOk (DownstreamResult.connectTimeout "timed out"))).1.body)
    ∧ ((relay { relay_token := some "tok", webhook_username := "admin",
                webhook_password := "changeme", n8n_endpoint := some "http://n8n" }
              { credentials := some { username := "admin", password := "changeme" },
                x_relay_token := some "tok", body := JsonValue.null }
              (ClientWorld.clientOk (DownstreamResult.connectError "refused"))).1.status = 502
      ∧ ("type", JVal.s "connection_error") ∈
          (relay { relay_token := some "tok", webhook_username := "admin",
                   webhook_password := "changeme", n8n_endpoint := some "http://n8n" }
                 { credentials := some { username := "admin", password := "changeme" },
                   x_relay_token := some "tok", body := JsonValue.null }
                 (ClientWorld.clientOk (DownstreamResult.connectError "refused"))).1.body) :=
  ⟨(relay_connection_failure_classified
      { relay_token := some "tok", webhook_username := "admin",
        webhook_password := "changeme", n8n_endpoint := some "http://n8n" }
      { credentials := some { username := "admin", password := "changeme" },
        x_relay_token := some "tok", body := JsonValue.null }
      { username := "admin", password := "changeme" } "timed out"
      rfl rfl rfl rfl).1,
   (relay_connection_failure_classified
      { relay_token := some "tok", webhook_username := "admin",
        webhook_password := "changeme", n8n_endpoint := some "http://n8n" }
      { credentials := some { username := "admin", password := "changeme" },
        x_relay_token := some "tok", body := JsonValue.null }
      { username := "admin", password := "changeme" } "refused"
      rfl rfl rfl rfl).2⟩

/-- C6: whenever an authorized request reaches the forwarder (the HTTP client
is constructed), exactly one outbound POST is issued, aimed at the configured
downstream URL, carrying the inbound JSON body unchanged, a 30-second
timeout, and the fixed headers including the identifying user agent —
whatever the downstream then does. -/
theorem relay_forwards_exactly_once (cfg : Config) (req : RelayRequest)
    (w : ClientWorld) (creds : HTTPBasicCredentials) (d : DownstreamResult)
    (hc : req.credentials = some creds)
    (hu : creds.username = cfg.webhook_username)
    (hp : creds.password = cfg.webhook_password)
    (ht : req.x_relay_token = cfg.relay_token)
    (hw : w = ClientWorld.clientOk d) :
    (relay cfg req w).2 =
      [{ url := cfg.n8n_endpoint, jsonBody := req.body,
         headers := [("Content-Type", "application/json"),
                     ("Accept", "application/json"),
                     ("User-Agent", "n8n-relay/1.0")],
         timeout := 30 }] := by
  subst hw
  cases d with
  | response st text =>
    by_cases hst : st ≥ 400 <;>
      simp [relay, verify_credentials, forwardHeaders, hc, hu, hp, ht,
            compare_digest_self, hst]
  | connectTimeout msg =>
    simp [relay, verify_credentials, forwardHeaders, hc, hu, hp, ht,
          compare_digest_self]
  | connectError msg =>
    simp [relay, verify_credentials, forwardHeaders, hc, hu, hp, ht,
          compare_digest_self]
  | otherError ty msg =>
    simp [relay, verify_credentials, forwardHeaders, hc, hu, hp, ht,
          compare_digest_self]

/-- C6 witness: the single outbound POST issued for a concrete authorized
request with a concrete payload. -/
theorem relay_forwards_exactly_once_witness :
    (relay { relay_token := some "tok", webhook_username := "admin",
             webhook_password := "changeme", n8n_endpoint := some "http://n8n" }
           { credentials := some { username := "admin", password := "changeme" },
             x_relay_token := some "tok",
             body := JsonValue.obj [("ticket", JsonValue.num 7)] }
           (ClientWorld.clientOk (DownstreamResult.response 200 "ok"))).2 =
      [{ url := some "http://n8n",
         jsonBody := JsonValue.obj [("ticket", JsonValue.num 7)],
         headers := [("Content-Type", "application/json"),
                     ("Accept", "application/json"),
                     ("User-Agent", "n8n-relay/1.0")],
         timeout := 30 }] :=
  relay_forwards_exactly_once
    { relay_token := some "tok", webhook_username := "admin",
      webhook_password := "changeme", n8n_endpoint := some "http://n8n" }
    { credentials := some { username := "admin", password := "changeme" },
      x_relay_token := some "tok",
      body := JsonValue.obj [("ticket", JsonValue.num 7)] }
    (ClientWorld.clientOk (DownstreamResult.response 200 "ok"))
    { username := "admin", password := "changeme" }
    (DownstreamResult.response 200 "ok")
    rfl rfl rfl rfl rfl
